import Mathlib

/-!
A shallow embedding, in Lean, of the KohakuRiver tunnel client
(`kohakuriver-tunnel`): the wire-protocol codec (`protocol.rs`), the
connection manager (`connection.rs`), and the reconnect loop of the
tunnel session driver (`tunnel.rs`).

Modelling conventions: machine integers (`u8`, `u16`, `u32`) become `Nat`
with explicit bounds (`< 2 ^ 32`, `< 2 ^ 16`) where they matter; byte
buffers (`&[u8]`, `Bytes`) become `List Nat`; fallible operations return
`Except`.  The asynchronous parts are made explicit: the spawned handler
task and the messages written to the shared WebSocket sink become `Event`
values emitted by each manager operation, and the state of a connection's
bounded `mpsc` channel (whether the handler still holds the receiving end)
becomes a boolean flag stored next to the table entry.
-/

namespace KTunnel

/-- Header size in bytes (`HEADER_SIZE` in `protocol.rs`). -/
def HEADER_SIZE : Nat := 8

/-- Decode errors of the codec (`ProtocolError` in `protocol.rs`). -/
inductive ProtocolError
  | InvalidMsgType (b : Nat)
  | InvalidProto (b : Nat)
  | MessageTooShort (n : Nat)
  deriving DecidableEq

/-- Message types (`MsgType` in `protocol.rs`). -/
inductive MsgType
  | Connect
  | Connected
  | Data
  | Close
  | Error
  | Ping
  | Pong
  deriving DecidableEq

/-- Numeric value of each message type (the `#[repr(u8)]` discriminants of
`MsgType`). -/
def MsgType.toByte : MsgType → Nat
  | MsgType.Connect => 1
  | MsgType.Connected => 2
  | MsgType.Data => 3
  | MsgType.Close => 4
  | MsgType.Error => 5
  | MsgType.Ping => 6
  | MsgType.Pong => 7

/-- Decode a message-type byte (`impl TryFrom<u8> for MsgType`). -/
def MsgType.tryFrom (b : Nat) : Except ProtocolError MsgType :=
  if b = 1 then Except.ok MsgType.Connect
  else if b = 2 then Except.ok MsgType.Connected
  else if b = 3 then Except.ok MsgType.Data
  else if b = 4 then Except.ok MsgType.Close
  else if b = 5 then Except.ok MsgType.Error
  else if b = 6 then Except.ok MsgType.Ping
  else if b = 7 then Except.ok MsgType.Pong
  else Except.error (ProtocolError.InvalidMsgType b)

/-- Address family (`Proto` in `protocol.rs`). -/
inductive Proto
  | Tcp
  | Udp
  deriving DecidableEq

/-- Numeric value of each family (the `#[repr(u8)]` discriminants of
`Proto`). -/
def Proto.toByte : Proto → Nat
  | Proto.Tcp => 0
  | Proto.Udp => 1

/-- Decode a family byte (`impl TryFrom<u8> for Proto`). -/
def Proto.tryFrom (b : Nat) : Except ProtocolError Proto :=
  if b = 0 then Except.ok Proto.Tcp
  else if b = 1 then Except.ok Proto.Udp
  else Except.error (ProtocolError.InvalidProto b)

/-- Parsed tunnel message header (`Header` in `protocol.rs`). -/
structure Header where
  msg_type : MsgType
  proto : Proto
  client_id : Nat
  port : Nat
  deriving DecidableEq

/-- Byte `i` of a buffer; the Rust code indexes `data[i]` only after the
length check, so the default value is never used on those paths. -/
def byteAt (data : List Nat) (i : Nat) : Nat :=
  data.getD i 0

/-- Serialize a header (`Header::write_to`): `put_u8` of the type byte,
`put_u8` of the family byte, `put_u32` big-endian, `put_u16` big-endian. -/
def Header.write_to (h : Header) : List Nat :=
  [h.msg_type.toByte, h.proto.toByte,
   h.client_id / 2 ^ 24 % 256, h.client_id / 2 ^ 16 % 256,
   h.client_id / 2 ^ 8 % 256, h.client_id % 256,
   h.port / 2 ^ 8 % 256, h.port % 256]

/-- Parse a header from bytes (`Header::parse`): length check first, then
the type byte, then the family byte, then big-endian `client_id` and
`port`. -/
def Header.parse (data : List Nat) : Except ProtocolError Header :=
  if data.length < HEADER_SIZE then
    Except.error (ProtocolError.MessageTooShort data.length)
  else
    match MsgType.tryFrom (byteAt data 0) with
    | Except.error e => Except.error e
    | Except.ok mt =>
      match Proto.tryFrom (byteAt data 1) with
      | Except.error e => Except.error e
      | Except.ok pr =>
        Except.ok
          { msg_type := mt
            proto := pr
            client_id :=
              ((byteAt data 2 * 256 + byteAt data 3) * 256 + byteAt data 4) * 256
                + byteAt data 5
            port := byteAt data 6 * 256 + byteAt data 7 }

/-- Build a complete tunnel message (`build_message`): header followed
verbatim by the payload. -/
def build_message (msg_type : MsgType) (proto : Proto) (client_id : Nat)
    (port : Nat) (payload : List Nat) : List Nat :=
  Header.write_to
    { msg_type := msg_type, proto := proto, client_id := client_id, port := port }
    ++ payload

/-- Build a CONNECTED message (`build_connected`). -/
def build_connected (proto : Proto) (client_id : Nat) : List Nat :=
  build_message MsgType.Connected proto client_id 0 []

/-- Build a DATA message (`build_data`). -/
def build_data (proto : Proto) (client_id : Nat) (data : List Nat) : List Nat :=
  build_message MsgType.Data proto client_id 0 data

/-- Build a CLOSE message (`build_close`). -/
def build_close (proto : Proto) (client_id : Nat) : List Nat :=
  build_message MsgType.Close proto client_id 0 []

/-- Build an ERROR message (`build_error`); the error text is modelled as
its byte sequence. -/
def build_error (proto : Proto) (client_id : Nat) (error_msg : List Nat) : List Nat :=
  build_message MsgType.Error proto client_id 0 error_msg

/-- Build a PONG message (`build_pong`); the source hard-codes
`Proto::Tcp` here. -/
def build_pong (client_id : Nat) : List Nat :=
  build_message MsgType.Pong Proto.Tcp client_id 0 []

/-- Extract the payload of a message (`get_payload`): everything after the
8-byte header, or empty when the input is at or under header length. -/
def get_payload (data : List Nat) : List Nat :=
  if data.length > HEADER_SIZE then data.drop HEADER_SIZE else []

/-- One entry of the connection table (`ActiveConnection` in
`connection.rs`).  The entry holds the sending end of the connection's
`mpsc` channel; `rxAlive` models whether the spawned handler still holds
the receiving end (it is dropped when the handler task terminates). -/
structure ActiveConn where
  rxAlive : Bool
  deriving DecidableEq

/-- State of the connection manager (`ConnectionManager`): the map
`client_id -> ActiveConnection`, modelled as an association list whose
keys are unique on every reachable state because `handle_connect` checks
membership before inserting. -/
structure MgrState where
  connections : List (Nat × ActiveConn)
  deriving DecidableEq

/-- A fresh manager (`ConnectionManager::new`). -/
def MgrState.new : MgrState :=
  { connections := [] }

/-- Observable effects of the manager operations: handler tasks spawned
(`tokio::spawn` in `handle_connect`), the log-and-ignore branches, and
messages written to the shared WebSocket sink. -/
inductive Event
  | SpawnHandler (id : Nat) (p : Proto) (port : Nat)
  | DupConnect (id : Nat)
  | Delivered (id : Nat) (payload : List Nat)
  | SendToConnFailed (id : Nat)
  | UnknownData (id : Nat)
  | Sent (msg : List Nat)
  deriving DecidableEq

/-- Handle a CONNECT message (`ConnectionManager::handle_connect`): if the
id is already present, log and return; otherwise create the channel, spawn
the handler, and insert the entry. -/
def handle_connect (s : MgrState) (client_id : Nat) (proto : Proto)
    (port : Nat) : MgrState × List Event :=
  if (s.connections.lookup client_id).isSome then
    (s, [Event.DupConnect client_id])
  else
    ({ connections := (client_id, { rxAlive := true }) :: s.connections },
     [Event.SpawnHandler client_id proto port])

/-- Handle a DATA message (`ConnectionManager::handle_data`): push the
payload onto the connection's channel when the id is known (the send fails
when the handler has dropped the receiving end), otherwise log and drop. -/
def handle_data (s : MgrState) (client_id : Nat) (_proto : Proto)
    (data : List Nat) : MgrState × List Event :=
  match s.connections.lookup client_id with
  | some conn =>
    if conn.rxAlive then (s, [Event.Delivered client_id data])
    else (s, [Event.SendToConnFailed client_id])
  | none => (s, [Event.UnknownData client_id])

/-- Handle a CLOSE message (`ConnectionManager::handle_close`): remove and
drop the entry if present, no-op otherwise. -/
def handle_close (s : MgrState) (client_id : Nat) : MgrState × List Event :=
  ({ connections := s.connections.filter (fun e => e.1 != client_id) }, [])

/-- Handle a PING message (`ConnectionManager::handle_ping`): send one
PONG tagged with the same id through the shared sink; the table is not
touched (the method takes `&self`). -/
def handle_ping (s : MgrState) (client_id : Nat) : MgrState × List Event :=
  (s, [Event.Sent (build_pong client_id)])

/-- Shutdown (`ConnectionManager::shutdown`): drain the whole table. -/
def shutdown (_s : MgrState) : MgrState × List Event :=
  ({ connections := [] }, [])

/-- Ways a spawned handler terminates on its own, which differ in who owns
the channel receiver `data_rx` afterwards (traced through
`handle_tcp_connection`): on a dial failure the function returns `Err`
before the write task exists, so the function itself drops `data_rx`; when
the read loop ends (local peer close or read error) the `tokio::select!`
completes and the function returns, but dropping the write task's
`JoinHandle` only detaches that task — it keeps running, parked on
`data_rx.recv()`, still holding the receiver; when the write task itself
ends (write or flush error, or channel closed) it drops `data_rx`. -/
inductive HandlerEnd
  | dialFailure
  | readLoopEnd
  | writeTaskEnd
  deriving DecidableEq

/-- Mark the channel receiver of the given id as dropped.  The table entry
itself is untouched: no code path in `connection.rs` removes an entry when
a handler task ends — only `handle_close` and `shutdown` remove entries. -/
def drop_rx (s : MgrState) (client_id : Nat) : MgrState :=
  { connections :=
      s.connections.map
        (fun e => if e.1 = client_id then (e.1, { rxAlive := false }) else e) }

/-- Effect, on the shared channel state, of the spawned handler
terminating on its own: the receiver dies on a dial failure or when the
write task ends, but survives the read loop ending, because the detached
write task still owns `data_rx` (see `HandlerEnd`).  In every case the
table entry is retained. -/
def handler_self_end (s : MgrState) (client_id : Nat) : HandlerEnd → MgrState
  | HandlerEnd.dialFailure => drop_rx s client_id
  | HandlerEnd.readLoopEnd => s
  | HandlerEnd.writeTaskEnd => drop_rx s client_id

/-- Inputs driving the manager, as dispatched by the session driver plus
the autonomous handler-termination step. -/
inductive Input
  | connect (id : Nat) (p : Proto) (port : Nat)
  | data (id : Nat) (p : Proto) (payload : List Nat)
  | close (id : Nat)
  | ping (id : Nat)
  | handlerEnd (id : Nat) (how : HandlerEnd)
  deriving DecidableEq

/-- One dispatch step of the manager.  A handler ending emits its ERROR or
CLOSE through the sink from inside the handler task; those emissions are
modelled separately by `tcpHandlerEmits`. -/
def step (s : MgrState) : Input → MgrState × List Event
  | Input.connect id p port => handle_connect s id p port
  | Input.data id p payload => handle_data s id p payload
  | Input.close id => handle_close s id
  | Input.ping id => handle_ping s id
  | Input.handlerEnd id how => (handler_self_end s id how, [])

/-- Run a sequence of inputs, accumulating events. -/
def runTrace (s : MgrState) : List Input → MgrState × List Event
  | [] => (s, [])
  | i :: rest =>
    let out := step s i
    let out2 := runTrace out.1 rest
    (out2.1, out.2 ++ out2.2)

/-- Number of table entries recorded under a given id. -/
def countKey (s : MgrState) (client_id : Nat) : Nat :=
  (s.connections.filter (fun e => e.1 == client_id)).length

/-- Number of handler tasks spawned for a given id in an event list. -/
def spawnCount (evs : List Event) (client_id : Nat) : Nat :=
  (evs.filter (fun e =>
    match e with
    | Event.SpawnHandler i _ _ => i == client_id
    | _ => false)).length

/-- Number of CONNECTED messages in a list of outbound messages,
recognized by the type byte of the header. -/
def countConnectedMsgs (msgs : List (List Nat)) : Nat :=
  (msgs.filter (fun m => m.head? == some (MsgType.toByte MsgType.Connected))).length

/-- Number of CLOSE messages in a list of outbound messages, recognized
by the type byte of the header. -/
def countCloseMsgs (msgs : List (List Nat)) : Nat :=
  (msgs.filter (fun m => m.head? == some (MsgType.toByte MsgType.Close))).length

/-- Messages the TCP handler (`handle_tcp_connection`) writes to the
shared sink over its lifetime, on the path where every sink send succeeds:
on dial failure exactly one ERROR and nothing else; on dial success one
CONNECTED, then one DATA per chunk read from the local socket, then one
CLOSE when the read loop ends (local peer close or read error). -/
def tcpHandlerEmits (client_id : Nat) (dialErr : Option (List Nat))
    (chunks : List (List Nat)) : List (List Nat) :=
  match dialErr with
  | some errText => [build_error Proto.Tcp client_id errText]
  | none =>
    build_connected Proto.Tcp client_id ::
      (chunks.map (fun c => build_data Proto.Tcp client_id c)
        ++ [build_close Proto.Tcp client_id])

/-- Messages the UDP handler (`handle_udp_connection`) writes to the
shared sink on the path where bind/connect succeed and every sink send
succeeds: one CONNECTED, one DATA per received datagram, one CLOSE when
the recv loop ends. -/
def udpHandlerEmits (client_id : Nat) (dgrams : List (List Nat)) : List (List Nat) :=
  build_connected Proto.Udp client_id ::
    (dgrams.map (fun c => build_data Proto.Udp client_id c)
      ++ [build_close Proto.Udp client_id])

/-- Outcome of one tunnel session, as observed by `TunnelClient::run`. -/
inductive SessionOutcome
  | connectFail
  | establishedThenError
  | establishedThenClose
  deriving DecidableEq

/-- Whether `connect_and_run` returns `Ok` for a given session outcome.
Read off `tunnel.rs`: the function returns `Err` only when
`connect_async` (or URL building) fails; once the read loop is entered,
both a transport error (`Err` arm: log, `break`) and a server close frame
lead to `shutdown()` and `Ok(())`. -/
def connect_and_run_ok : SessionOutcome → Bool
  | SessionOutcome.connectFail => false
  | SessionOutcome.establishedThenError => true
  | SessionOutcome.establishedThenClose => true

/-- The attempt-counter update performed by one iteration of
`TunnelClient::run` after the attempt was made (`attempt` is the value
already incremented at the top of the loop): `Ok` resets to zero, `Err`
leaves the incremented value. -/
def next_attempt (attempt : Nat) (o : SessionOutcome) : Nat :=
  if connect_and_run_ok o then 0 else attempt

/-- Observable events of the reconnect loop: each connection attempt (with
the value of the incremented counter), each inter-attempt sleep of the
configured reconnect delay, and the final give-up exit. -/
inductive RunEvent
  | attemptStart (n : Nat)
  | sleep
  | gaveUp
  deriving DecidableEq

/-- The reconnect loop of `TunnelClient::run`, modelled over a stream of
prescribed session outcomes (one per `connect_and_run` call the loop gets
to make; the list doubles as fuel).  Each iteration increments the
counter, gives up when a non-zero cap is exceeded, otherwise runs one
session, updates the counter via `next_attempt`, sleeps the reconnect
delay, and loops.  The boolean result is `true` when the loop exited with
the max-attempts failure, `false` while it is still looping. -/
def run_model (max : Nat) : List SessionOutcome → Nat → List RunEvent × Bool
  | [], attempt =>
    if 0 < max ∧ max < attempt + 1 then ([RunEvent.gaveUp], true)
    else ([], false)
  | o :: rest, attempt =>
    if 0 < max ∧ max < attempt + 1 then ([RunEvent.gaveUp], true)
    else
      (RunEvent.attemptStart (attempt + 1) :: RunEvent.sleep ::
        (run_model max rest (next_attempt (attempt + 1) o)).1,
       (run_model max rest (next_attempt (attempt + 1) o)).2)

/-- The expected event trace of `k` consecutive connection attempts
starting at counter value `i`: each attempt followed by one sleep. -/
def attemptEvents : Nat → Nat → List RunEvent
  | 0, _ => []
  | k + 1, i => RunEvent.attemptStart i :: RunEvent.sleep :: attemptEvents k (i + 1)

/-- Number of connection attempts in a run-loop event list. -/
def countAttempts (evs : List RunEvent) : Nat :=
  (evs.filter (fun e =>
    match e with
    | RunEvent.attemptStart _ => true
    | _ => false)).length

/-- The per-frame dispatch of `TunnelClient::handle_message`: too-short
frames are ignored, decode errors make the function return `Err` (the
caller logs and skips the frame), and otherwise the message is dispatched
by type; CONNECTED/ERROR/PONG from the server are logged and ignored.
Note the PING arm passes only `header.client_id` to `handle_ping`. -/
def handle_message (s : MgrState) (data : List Nat) : MgrState × List Event :=
  if data.length < HEADER_SIZE then (s, [])
  else
    match Header.parse data with
    | Except.error _ => (s, [])
    | Except.ok h =>
      match h.msg_type with
      | MsgType.Connect => handle_connect s h.client_id h.proto h.port
      | MsgType.Data => handle_data s h.client_id h.proto (get_payload data)
      | MsgType.Close => handle_close s h.client_id
      | MsgType.Ping => handle_ping s h.client_id
      | _ => (s, [])

/-! ## Helper lemmas about the codec -/

theorem msgType_tryFrom_toByte (t : MsgType) : MsgType.tryFrom t.toByte = Except.ok t := by
  cases t <;> rfl

theorem proto_tryFrom_toByte (p : Proto) : Proto.tryFrom p.toByte = Except.ok p := by
  cases p <;> rfl

theorem msgType_tryFrom_invalid (b : Nat) (h : b = 0 ∨ 7 < b) :
    MsgType.tryFrom b = Except.error (ProtocolError.InvalidMsgType b) := by
  unfold MsgType.tryFrom
  rw [if_neg (by omega), if_neg (by omega), if_neg (by omega), if_neg (by omega),
    if_neg (by omega), if_neg (by omega), if_neg (by omega)]

theorem msgType_tryFrom_valid (b : Nat) (h1 : 1 ≤ b) (h2 : b ≤ 7) :
    ∃ t, MsgType.tryFrom b = Except.ok t := by
  interval_cases b <;> exact ⟨_, rfl⟩

theorem proto_tryFrom_invalid (b : Nat) (h0 : b ≠ 0) (h1 : b ≠ 1) :
    Proto.tryFrom b = Except.error (ProtocolError.InvalidProto b) := by
  unfold Proto.tryFrom
  rw [if_neg h0, if_neg h1]

theorem parse_build_message (t : MsgType) (p : Proto) (id port : Nat)
    (payload : List Nat) (hid : id < 2 ^ 32) (hport : port < 2 ^ 16) :
    Header.parse (build_message t p id port payload) =
      Except.ok { msg_type := t, proto := p, client_id := id, port := port } := by
  have hlen : ¬ (build_message t p id port payload).length < HEADER_SIZE := by
    simp [build_message, Header.write_to, HEADER_SIZE]
  have h0 : byteAt (build_message t p id port payload) 0 = t.toByte := rfl
  have h1 : byteAt (build_message t p id port payload) 1 = p.toByte := rfl
  have h2 : byteAt (build_message t p id port payload) 2 = id / 2 ^ 24 % 256 := rfl
  have h3 : byteAt (build_message t p id port payload) 3 = id / 2 ^ 16 % 256 := rfl
  have h4 : byteAt (build_message t p id port payload) 4 = id / 2 ^ 8 % 256 := rfl
  have h5 : byteAt (build_message t p id port payload) 5 = id % 256 := rfl
  have h6 : byteAt (build_message t p id port payload) 6 = port / 2 ^ 8 % 256 := rfl
  have h7 : byteAt (build_message t p id port payload) 7 = port % 256 := rfl
  unfold Header.parse
  rw [if_neg hlen, h0, h1, h2, h3, h4, h5, h6, h7,
    msgType_tryFrom_toByte, proto_tryFrom_toByte]
  dsimp only
  simp only [Except.ok.injEq, Header.mk.injEq, true_and]
  omega

theorem get_payload_build_message (t : MsgType) (p : Proto) (id port : Nat)
    (payload : List Nat) :
    get_payload (build_message t p id port payload) = payload := by
  cases payload with
  | nil => rfl
  | cons c cs =>
    have hgt : (build_message t p id port (c :: cs)).length > HEADER_SIZE := by
      simp [build_message, Header.write_to, HEADER_SIZE]
    unfold get_payload
    rw [if_pos hgt]
    rfl

/-! ## Codec claims -/

/-- Claim C1: for every valid message type, family, 32-bit connection id,
16-bit port and byte-sequence payload, parsing the bytes produced by
`build_message` returns a header whose `msg_type`, `proto`, `client_id`
and `port` equal the encoded inputs, and `get_payload` applied to those
bytes returns exactly the encoded payload. -/
theorem C1_codec_roundtrip (t : MsgType) (p : Proto) (id port : Nat)
    (payload : List Nat) (hid : id < 2 ^ 32) (hport : port < 2 ^ 16) :
    Header.parse (build_message t p id port payload) =
      Except.ok { msg_type := t, proto := p, client_id := id, port := port } ∧
    get_payload (build_message t p id port payload) = payload :=
  ⟨parse_build_message t p id port payload hid hport,
   get_payload_build_message t p id port payload⟩

theorem C1_codec_roundtrip_witness :
    Header.parse (build_message MsgType.Data Proto.Udp 12345 8080 [112, 105]) =
      Except.ok
        { msg_type := MsgType.Data, proto := Proto.Udp, client_id := 12345, port := 8080 } ∧
    get_payload (build_message MsgType.Data Proto.Udp 12345 8080 [112, 105]) = [112, 105] :=
  C1_codec_roundtrip MsgType.Data Proto.Udp 12345 8080 [112, 105] (by decide) (by decide)

/-- Claim C7: for every byte sequence of length strictly less than 8,
`Header.parse` fails with the too-short error reporting the given length,
and never returns a header for such input. -/
theorem C7_too_short_decode (data : List Nat) (h : data.length < 8) :
    Header.parse data = Except.error (ProtocolError.MessageTooShort data.length) := by
  unfold Header.parse
  rw [if_pos (show data.length < HEADER_SIZE from h)]

theorem C7_too_short_decode_witness :
    Header.parse [1, 0, 0] = Except.error (ProtocolError.MessageTooShort 3) :=
  C7_too_short_decode [1, 0, 0] (by decide)

/-- Claim C8: for every byte sequence of length at least 8 whose first
byte is outside `0x01..=0x07` or whose second byte is outside
`{0x00, 0x01}`, `Header.parse` fails with the corresponding unknown
message-type or unknown-family error carrying the offending byte, and no
partial header is returned. -/
theorem C8_unknown_enum_decode (b0 b1 b2 b3 b4 b5 b6 b7 : Nat) (rest : List Nat) :
    ((b0 = 0 ∨ 7 < b0) →
      Header.parse (b0 :: b1 :: b2 :: b3 :: b4 :: b5 :: b6 :: b7 :: rest) =
        Except.error (ProtocolError.InvalidMsgType b0)) ∧
    (1 ≤ b0 → b0 ≤ 7 → b1 ≠ 0 → b1 ≠ 1 →
      Header.parse (b0 :: b1 :: b2 :: b3 :: b4 :: b5 :: b6 :: b7 :: rest) =
        Except.error (ProtocolError.InvalidProto b1)) := by
  have hlen : ¬ (b0 :: b1 :: b2 :: b3 :: b4 :: b5 :: b6 :: b7 :: rest).length < HEADER_SIZE := by
    simp [HEADER_SIZE]
  have h0 : byteAt (b0 :: b1 :: b2 :: b3 :: b4 :: b5 :: b6 :: b7 :: rest) 0 = b0 := rfl
  have hb1 : byteAt (b0 :: b1 :: b2 :: b3 :: b4 :: b5 :: b6 :: b7 :: rest) 1 = b1 := rfl
  constructor
  · intro h
    unfold Header.parse
    rw [if_neg hlen, h0, msgType_tryFrom_invalid b0 h]
  · intro ha hb hc hd
    obtain ⟨t, ht⟩ := msgType_tryFrom_valid b0 ha hb
    unfold Header.parse
    rw [if_neg hlen, h0, hb1, ht, proto_tryFrom_invalid b1 hc hd]

theorem C8_unknown_enum_decode_witness :
    Header.parse [9, 0, 0, 0, 0, 0, 0, 1] =
      Except.error (ProtocolError.InvalidMsgType 9) ∧
    Header.parse [1, 5, 0, 0, 0, 0, 0, 7] =
      Except.error (ProtocolError.InvalidProto 5) :=
  ⟨(C8_unknown_enum_decode 9 0 0 0 0 0 0 1 []).1 (by omega),
   (C8_unknown_enum_decode 1 5 0 0 0 0 0 7 []).2 (by omega) (by omega)
     (by omega) (by omega)⟩

/-! ## Helper lemmas about the connection table -/

theorem countKey_zero_of_lookup_none (l : List (Nat × ActiveConn)) (id : Nat)
    (h : l.lookup id = none) :
    (List.filter (fun e => e.1 == id) l).length = 0 := by
  rw [List.length_eq_zero, List.filter_eq_nil_iff]
  intro e he
  have hne := (List.lookup_eq_none_iff.mp h) e he
  simp only [bne_iff_ne, ne_eq] at hne
  simp only [beq_iff_eq]
  omega

theorem lookup_filter_ne_self (l : List (Nat × ActiveConn)) (id : Nat) :
    (List.filter (fun e => e.1 != id) l).lookup id = none := by
  rw [List.lookup_eq_none_iff]
  intro e he
  have hmem := (List.mem_filter.mp he).2
  simp only [bne_iff_ne, ne_eq] at hmem ⊢
  omega

theorem filter_ne_of_lookup_none (l : List (Nat × ActiveConn)) (id : Nat)
    (h : l.lookup id = none) :
    List.filter (fun e => e.1 != id) l = l := by
  induction l with
  | nil => rfl
  | cons e rest ih =>
    have hne := (List.lookup_eq_none_iff.mp h) e (by simp)
    have hrest : rest.lookup id = none := by
      rw [List.lookup_eq_none_iff]
      intro q hq
      exact (List.lookup_eq_none_iff.mp h) q (by simp [hq])
    rw [List.filter_cons_of_pos (by simp only [bne_iff_ne, ne_eq] at hne ⊢; omega),
      ih hrest]

theorem handle_connect_fresh (s : MgrState) (id : Nat) (p : Proto) (port : Nat)
    (h : s.connections.lookup id = none) :
    handle_connect s id p port =
      ({ connections := (id, { rxAlive := true }) :: s.connections },
       [Event.SpawnHandler id p port]) := by
  unfold handle_connect
  rw [h]
  rfl

theorem handle_connect_dup (s : MgrState) (id : Nat) (p : Proto) (port : Nat)
    (h : (s.connections.lookup id).isSome) :
    handle_connect s id p port = (s, [Event.DupConnect id]) := by
  unfold handle_connect
  rw [if_pos h]

theorem countConnected_data_map_close (p : Proto) (id : Nat)
    (chunks : List (List Nat)) :
    countConnectedMsgs
      (chunks.map (fun c => build_data p id c) ++ [build_close p id]) = 0 := by
  induction chunks with
  | nil => rfl
  | cons c cs ih => exact ih

theorem countClose_data_map_close (p : Proto) (id : Nat)
    (chunks : List (List Nat)) :
    countCloseMsgs
      (chunks.map (fun c => build_data p id c) ++ [build_close p id]) = 1 := by
  induction chunks with
  | nil => rfl
  | cons c cs ih => exact ih

/-! ## Connection-manager claims -/

/-- Claim C2: invoking `handle_connect` with a fresh id adds exactly one
live entry for that id and spawns one handler; invoking it again with the
same id before any CLOSE leaves the table with exactly that one entry and
spawns no second handler, and a spawned handler emits at most one
CONNECTED, so at most one CONNECTED is ever emitted per id per CONNECT
sequence. -/
theorem C2_duplicate_connect_idempotent (s : MgrState) (id : Nat) (p p2 : Proto)
    (port port2 : Nat) (hfresh : s.connections.lookup id = none) :
    countKey (handle_connect s id p port).1 id = 1 ∧
    (handle_connect s id p port).2 = [Event.SpawnHandler id p port] ∧
    handle_connect (handle_connect s id p port).1 id p2 port2 =
      ((handle_connect s id p port).1, [Event.DupConnect id]) ∧
    spawnCount ((handle_connect s id p port).2
      ++ (handle_connect (handle_connect s id p port).1 id p2 port2).2) id = 1 ∧
    (∀ dialErr chunks, countConnectedMsgs (tcpHandlerEmits id dialErr chunks) ≤ 1) ∧
    (∀ dgrams, countConnectedMsgs (udpHandlerEmits id dgrams) ≤ 1) := by
  have hstep := handle_connect_fresh s id p port hfresh
  have hdup : handle_connect
      ({ connections := (id, { rxAlive := true }) :: s.connections } : MgrState) id p2 port2
      = ({ connections := (id, { rxAlive := true }) :: s.connections }, [Event.DupConnect id]) := by
    apply handle_connect_dup
    simp
  have hzero := countKey_zero_of_lookup_none s.connections id hfresh
  refine ⟨?_, ?_, ?_, ?_, ?_, ?_⟩
  · rw [hstep]
    show (List.filter (fun e => e.1 == id)
      ((id, { rxAlive := true }) :: s.connections)).length = 1
    rw [List.filter_cons_of_pos (by simp), List.length_cons, hzero]
  · rw [hstep]
  · rw [hstep]
    exact hdup
  · rw [hstep, hdup]
    show (List.filter (fun e =>
        match e with
        | Event.SpawnHandler i _ _ => i == id
        | _ => false)
      [Event.SpawnHandler id p port, Event.DupConnect id]).length = 1
    rw [List.filter_cons_of_pos (by simp), List.filter_cons_of_neg (by simp)]
    rfl
  · intro dialErr chunks
    cases dialErr with
    | some msg => exact Nat.zero_le 1
    | none =>
      show countConnectedMsgs (build_connected Proto.Tcp id
        :: (chunks.map (fun c => build_data Proto.Tcp id c)
            ++ [build_close Proto.Tcp id])) ≤ 1
      unfold countConnectedMsgs
      rw [List.filter_cons_of_pos (by rfl), List.length_cons]
      have h0 := countConnected_data_map_close Proto.Tcp id chunks
      unfold countConnectedMsgs at h0
      omega
  · intro dgrams
    show countConnectedMsgs (build_connected Proto.Udp id
      :: (dgrams.map (fun c => build_data Proto.Udp id c)
          ++ [build_close Proto.Udp id])) ≤ 1
    unfold countConnectedMsgs
    rw [List.filter_cons_of_pos (by rfl), List.length_cons]
    have h0 := countConnected_data_map_close Proto.Udp id dgrams
    unfold countConnectedMsgs at h0
    omega

theorem C2_duplicate_connect_idempotent_witness :
    countKey (handle_connect MgrState.new 7 Proto.Tcp 9000).1 7 = 1 ∧
    (handle_connect MgrState.new 7 Proto.Tcp 9000).2 = [Event.SpawnHandler 7 Proto.Tcp 9000] ∧
    handle_connect (handle_connect MgrState.new 7 Proto.Tcp 9000).1 7 Proto.Tcp 9000 =
      ((handle_connect MgrState.new 7 Proto.Tcp 9000).1, [Event.DupConnect 7]) ∧
    spawnCount ((handle_connect MgrState.new 7 Proto.Tcp 9000).2
      ++ (handle_connect (handle_connect MgrState.new 7 Proto.Tcp 9000).1 7 Proto.Tcp 9000).2) 7 = 1 ∧
    (∀ dialErr chunks, countConnectedMsgs (tcpHandlerEmits 7 dialErr chunks) ≤ 1) ∧
    (∀ dgrams, countConnectedMsgs (udpHandlerEmits 7 dgrams) ≤ 1) :=
  C2_duplicate_connect_idempotent MgrState.new 7 Proto.Tcp Proto.Tcp 9000 9000 rfl

/-- Claim C3: `handle_close` with a known id removes that id from the
table, so that a subsequent `handle_data` for the same id takes the
unknown-id branch and delivers no payload to any channel; `handle_close`
with an unknown id leaves the table unchanged. -/
theorem C3_close_semantics (s : MgrState) (id : Nat) (p : Proto) (payload : List Nat) :
    ((s.connections.lookup id).isSome →
      ((handle_close s id).1.connections.lookup id = none ∧
        handle_data (handle_close s id).1 id p payload =
          ((handle_close s id).1, [Event.UnknownData id]))) ∧
    (s.connections.lookup id = none → handle_close s id = (s, [])) := by
  constructor
  · intro _
    have hnone : (handle_close s id).1.connections.lookup id = none := by
      show (List.filter (fun e => e.1 != id) s.connections).lookup id = none
      exact lookup_filter_ne_self s.connections id
    refine ⟨hnone, ?_⟩
    unfold handle_data
    rw [hnone]
  · intro h
    unfold handle_close
    rw [filter_ne_of_lookup_none s.connections id h]

theorem C3_close_semantics_witness :
    ((handle_close { connections := [(7, { rxAlive := true })] } 7).1.connections.lookup 7
        = none ∧
      handle_data (handle_close { connections := [(7, { rxAlive := true })] } 7).1 7
          Proto.Tcp [112]
        = ((handle_close { connections := [(7, { rxAlive := true })] } 7).1,
           [Event.UnknownData 7])) ∧
    handle_close MgrState.new 3 = (MgrState.new, []) :=
  ⟨(C3_close_semantics { connections := [(7, { rxAlive := true })] } 7 Proto.Tcp [112]).1 rfl,
   (C3_close_semantics MgrState.new 3 Proto.Tcp []).2 rfl⟩

/-- Claim C4 is refuted on the code, in both of its named cases: after
CONNECT of id 7 and a dial failure, the connection-table entry for 7 is
still present and a subsequent DATA for 7 does not take the unknown-id
branch; after CONNECT of id 7 and the read loop ending (local peer close
or read error), the entry is still present and a subsequent DATA for 7 is
even delivered to the still-running detached write task, again not
treated as unknown. -/
theorem C4_counterexample :
    (((runTrace MgrState.new
        [Input.connect 7 Proto.Tcp 9000, Input.handlerEnd 7 HandlerEnd.dialFailure,
         Input.data 7 Proto.Tcp [112]]).1.connections.lookup 7).isSome = true ∧
      Event.UnknownData 7 ∉
        (runTrace MgrState.new
          [Input.connect 7 Proto.Tcp 9000, Input.handlerEnd 7 HandlerEnd.dialFailure,
           Input.data 7 Proto.Tcp [112]]).2) ∧
    (((runTrace MgrState.new
        [Input.connect 7 Proto.Tcp 9000, Input.handlerEnd 7 HandlerEnd.readLoopEnd,
         Input.data 7 Proto.Tcp [112]]).1.connections.lookup 7).isSome = true ∧
      Event.UnknownData 7 ∉
        (runTrace MgrState.new
          [Input.connect 7 Proto.Tcp 9000, Input.handlerEnd 7 HandlerEnd.readLoopEnd,
           Input.data 7 Proto.Tcp [112]]).2 ∧
      Event.Delivered 7 [112] ∈
        (runTrace MgrState.new
          [Input.connect 7 Proto.Tcp 9000, Input.handlerEnd 7 HandlerEnd.readLoopEnd,
           Input.data 7 Proto.Tcp [112]]).2) := by
  decide

/-- Claim C4 (amended): when a connection's handler terminates on its own,
the connection-table entry created by CONNECT is retained, not removed,
and a subsequent DATA for that id is never treated as unknown.  After a
dial failure (which emits exactly one ERROR and drops the channel
receiver before the write task exists) the channel send fails and the
payload is dropped; after the read loop ends (local peer close or read
error, which emits exactly one CLOSE) the detached write task still holds
the receiver, so the payload is delivered to it and written to the local
socket.  The entry is removed only by an explicit CLOSE or by shutdown. -/
theorem C4_handler_end_retains_entry (s : MgrState) (id : Nat) (p p2 : Proto)
    (port : Nat) (payload : List Nat) (hfresh : s.connections.lookup id = none) :
    (((handler_self_end (handle_connect s id p port).1 id
        HandlerEnd.dialFailure).connections.lookup id).isSome = true) ∧
    handle_data (handler_self_end (handle_connect s id p port).1 id
        HandlerEnd.dialFailure) id p2 payload =
      (handler_self_end (handle_connect s id p port).1 id HandlerEnd.dialFailure,
       [Event.SendToConnFailed id]) ∧
    (∀ errText chunks,
      tcpHandlerEmits id (some errText) chunks = [build_error Proto.Tcp id errText]) ∧
    (((handler_self_end (handle_connect s id p port).1 id
        HandlerEnd.readLoopEnd).connections.lookup id).isSome = true) ∧
    handle_data (handler_self_end (handle_connect s id p port).1 id
        HandlerEnd.readLoopEnd) id p2 payload =
      (handler_self_end (handle_connect s id p port).1 id HandlerEnd.readLoopEnd,
       [Event.Delivered id payload]) ∧
    (∀ chunks, countCloseMsgs (tcpHandlerEmits id none chunks) = 1) ∧
    ((handle_close (handler_self_end (handle_connect s id p port).1 id
        HandlerEnd.dialFailure) id).1.connections.lookup id = none) ∧
    ((handle_close (handler_self_end (handle_connect s id p port).1 id
        HandlerEnd.readLoopEnd) id).1.connections.lookup id = none) := by
  rw [handle_connect_fresh s id p port hfresh]
  have hdial : handler_self_end
      ({ connections := (id, { rxAlive := true }) :: s.connections } : MgrState) id
      HandlerEnd.dialFailure
      = { connections := (id, { rxAlive := false }) ::
            (s.connections.map
              (fun e => if e.1 = id then (e.1, { rxAlive := false }) else e)) } := by
    show drop_rx _ id = _
    unfold drop_rx
    simp
  have hread : handler_self_end
      ({ connections := (id, { rxAlive := true }) :: s.connections } : MgrState) id
      HandlerEnd.readLoopEnd
      = { connections := (id, { rxAlive := true }) :: s.connections } := rfl
  rw [hdial, hread]
  refine ⟨?_, ?_, ?_, ?_, ?_, ?_, ?_, ?_⟩
  · simp
  · unfold handle_data
    rw [List.lookup_cons_self]
    rfl
  · intro errText chunks
    rfl
  · simp
  · unfold handle_data
    rw [List.lookup_cons_self]
    rfl
  · intro chunks
    exact countClose_data_map_close Proto.Tcp id chunks
  · show (List.filter (fun e => e.1 != id) _).lookup id = none
    exact lookup_filter_ne_self _ id
  · show (List.filter (fun e => e.1 != id) _).lookup id = none
    exact lookup_filter_ne_self _ id

theorem C4_handler_end_retains_entry_witness :
    (((handler_self_end (handle_connect MgrState.new 7 Proto.Tcp 9000).1 7
        HandlerEnd.dialFailure).connections.lookup 7).isSome = true) ∧
    handle_data (handler_self_end (handle_connect MgrState.new 7 Proto.Tcp 9000).1 7
        HandlerEnd.dialFailure) 7 Proto.Tcp [112] =
      (handler_self_end (handle_connect MgrState.new 7 Proto.Tcp 9000).1 7
        HandlerEnd.dialFailure,
       [Event.SendToConnFailed 7]) ∧
    (∀ errText chunks,
      tcpHandlerEmits 7 (some errText) chunks = [build_error Proto.Tcp 7 errText]) ∧
    (((handler_self_end (handle_connect MgrState.new 7 Proto.Tcp 9000).1 7
        HandlerEnd.readLoopEnd).connections.lookup 7).isSome = true) ∧
    handle_data (handler_self_end (handle_connect MgrState.new 7 Proto.Tcp 9000).1 7
        HandlerEnd.readLoopEnd) 7 Proto.Tcp [112] =
      (handler_self_end (handle_connect MgrState.new 7 Proto.Tcp 9000).1 7
        HandlerEnd.readLoopEnd,
       [Event.Delivered 7 [112]]) ∧
    (∀ chunks, countCloseMsgs (tcpHandlerEmits 7 none chunks) = 1) ∧
    ((handle_close (handler_self_end (handle_connect MgrState.new 7 Proto.Tcp 9000).1 7
        HandlerEnd.dialFailure) 7).1.connections.lookup 7 = none) ∧
    ((handle_close (handler_self_end (handle_connect MgrState.new 7 Proto.Tcp 9000).1 7
        HandlerEnd.readLoopEnd) 7).1.connections.lookup 7 = none) :=
  C4_handler_end_retains_entry MgrState.new 7 Proto.Tcp Proto.Tcp 9000 [112] rfl

/-- Claim C9: `handle_ping` sends exactly one PONG message tagged with the
same id through the shared outbound sink, for every table state (so
regardless of whether a connection with that id exists), and leaves the
connection table entirely unchanged. -/
theorem C9_ping_pong (s : MgrState) (id : Nat) (hid : id < 2 ^ 32) :
    handle_ping s id = (s, [Event.Sent (build_pong id)]) ∧
    Header.parse (build_pong id) =
      Except.ok { msg_type := MsgType.Pong, proto := Proto.Tcp, client_id := id, port := 0 } :=
  ⟨rfl, parse_build_message MsgType.Pong Proto.Tcp id 0 [] hid (by decide)⟩

theorem C9_ping_pong_witness :
    handle_ping MgrState.new 99 = (MgrState.new, [Event.Sent (build_pong 99)]) ∧
    Header.parse (build_pong 99) =
      Except.ok { msg_type := MsgType.Pong, proto := Proto.Tcp, client_id := 99, port := 0 } :=
  C9_ping_pong MgrState.new 99 (by decide)

/-- Claim C10 (implicit): every PONG the client emits carries family byte
0x00 (TCP) in its header regardless of the family byte of the PING that
triggered it — `build_pong` hard-codes `Proto.Tcp` and the dispatcher
passes only the client id to `handle_ping`. -/
theorem C10_pong_family_always_tcp (s : MgrState) (f : Proto) (id : Nat)
    (hid : id < 2 ^ 32) :
    byteAt (build_pong id) 1 = Proto.toByte Proto.Tcp ∧
    Proto.toByte Proto.Tcp = 0 ∧
    handle_message s (build_message MsgType.Ping f id 0 []) =
      (s, [Event.Sent (build_pong id)]) ∧
    Header.parse (build_pong id) =
      Except.ok { msg_type := MsgType.Pong, proto := Proto.Tcp, client_id := id, port := 0 } := by
  have hlen : ¬ (build_message MsgType.Ping f id 0 []).length < HEADER_SIZE := by
    simp [build_message, Header.write_to, HEADER_SIZE]
  refine ⟨rfl, rfl, ?_, parse_build_message MsgType.Pong Proto.Tcp id 0 [] hid (by decide)⟩
  unfold handle_message
  rw [if_neg hlen, parse_build_message MsgType.Ping f id 0 [] hid (by decide)]
  rfl

theorem C10_pong_family_always_tcp_witness :
    byteAt (build_pong 42) 1 = Proto.toByte Proto.Tcp ∧
    Proto.toByte Proto.Tcp = 0 ∧
    handle_message MgrState.new (build_message MsgType.Ping Proto.Udp 42 0 []) =
      (MgrState.new, [Event.Sent (build_pong 42)]) ∧
    Header.parse (build_pong 42) =
      Except.ok { msg_type := MsgType.Pong, proto := Proto.Tcp, client_id := 42, port := 0 } :=
  C10_pong_family_always_tcp MgrState.new Proto.Udp 42 (by decide)

/-! ## Helper lemmas about the reconnect loop -/

theorem run_model_all_connect_fail (N : Nat) (hN : 0 < N) :
    ∀ k a, a ≤ N → N - a ≤ k →
      run_model N (List.replicate k SessionOutcome.connectFail) a =
        (attemptEvents (N - a) (a + 1) ++ [RunEvent.gaveUp], true) := by
  intro k
  induction k with
  | zero =>
    intro a ha hk
    have haN : a = N := by omega
    rw [haN, show N - N = 0 from by omega]
    show run_model N [] N = _
    unfold run_model
    rw [if_pos ⟨hN, by omega⟩]
    rfl
  | succ k ih =>
    intro a ha hk
    rw [List.replicate_succ]
    by_cases haN : a = N
    · rw [haN, show N - N = 0 from by omega]
      unfold run_model
      rw [if_pos ⟨hN, by omega⟩]
      rfl
    · have ha2 : a < N := by omega
      unfold run_model
      rw [if_neg (by omega),
        show next_attempt (a + 1) SessionOutcome.connectFail = a + 1 from rfl,
        ih (a + 1) (by omega) (by omega),
        show N - a = (N - (a + 1)) + 1 from by omega]
      rfl

theorem run_model_unlimited (k : Nat) :
    ∀ a, run_model 0 (List.replicate k SessionOutcome.connectFail) a =
      (attemptEvents k (a + 1), false) := by
  induction k with
  | zero =>
    intro a
    rfl
  | succ k ih =>
    intro a
    rw [List.replicate_succ]
    unfold run_model
    rw [if_neg (by omega),
      show next_attempt (a + 1) SessionOutcome.connectFail = a + 1 from rfl,
      ih (a + 1)]
    rfl

theorem countAttempts_attemptEvents (k : Nat) :
    ∀ i, countAttempts (attemptEvents k i) = k := by
  induction k with
  | zero =>
    intro i
    rfl
  | succ k ih =>
    intro i
    show countAttempts
      (RunEvent.attemptStart i :: RunEvent.sleep :: attemptEvents k (i + 1)) = k + 1
    unfold countAttempts
    rw [List.filter_cons_of_pos (by rfl), List.filter_cons_of_neg (by simp),
      List.length_cons]
    have hk := ih (i + 1)
    unfold countAttempts at hk
    omega

theorem countAttempts_append_gaveUp (l : List RunEvent) :
    countAttempts (l ++ [RunEvent.gaveUp]) = countAttempts l := by
  unfold countAttempts
  rw [List.filter_append]
  simp

/-! ## Reconnect-loop claims -/

/-- Claim C6: for every configured cap N > 0, if every connect attempt
fails, the reconnect loop performs exactly N connection attempts, each
followed by the configured reconnect-delay sleep, and then exits with the
max-attempts failure; with cap 0 it never stops attempting — for every
bound b there is a run making more than b attempts that is still
looping. -/
theorem C6_reconnect_attempt_cap (N k : Nat) (hN : 0 < N) (hk : N ≤ k) :
    run_model N (List.replicate k SessionOutcome.connectFail) 0 =
      (attemptEvents N 1 ++ [RunEvent.gaveUp], true) ∧
    countAttempts (run_model N (List.replicate k SessionOutcome.connectFail) 0).1 = N ∧
    (∀ b, ∃ m,
      b < countAttempts (run_model 0 (List.replicate m SessionOutcome.connectFail) 0).1 ∧
      (run_model 0 (List.replicate m SessionOutcome.connectFail) 0).2 = false) := by
  have h := run_model_all_connect_fail N hN k 0 (by omega) (by omega)
  rw [show N - 0 = N from rfl] at h
  refine ⟨h, ?_, ?_⟩
  · rw [h]
    show countAttempts (attemptEvents N 1 ++ [RunEvent.gaveUp]) = N
    rw [countAttempts_append_gaveUp, countAttempts_attemptEvents]
  · intro b
    refine ⟨b + 1, ?_, ?_⟩
    · rw [run_model_unlimited (b + 1) 0]
      show b < countAttempts (attemptEvents (b + 1) 1)
      rw [countAttempts_attemptEvents]
      omega
    · rw [run_model_unlimited (b + 1) 0]

theorem C6_reconnect_attempt_cap_witness :
    run_model 3 (List.replicate 5 SessionOutcome.connectFail) 0 =
      ([RunEvent.attemptStart 1, RunEvent.sleep, RunEvent.attemptStart 2, RunEvent.sleep,
        RunEvent.attemptStart 3, RunEvent.sleep, RunEvent.gaveUp], true) ∧
    countAttempts (run_model 3 (List.replicate 5 SessionOutcome.connectFail) 0).1 = 3 := by
  have h := C6_reconnect_attempt_cap 3 5 (by decide) (by decide)
  exact ⟨h.1.trans (by decide), h.2.1⟩

/-- Claim C5 is refuted on the code: a session that establishes the
transport connection and then fails (the read loop exits via a transport
error) makes `connect_and_run` return `Ok`, so the loop resets the
counter to 0 instead of keeping the incremented value; with cap 1 the
loop survives five such sessions without ever giving up. -/
theorem C5_counterexample :
    connect_and_run_ok SessionOutcome.establishedThenError = true ∧
    next_attempt 2 SessionOutcome.establishedThenError = 0 ∧
    ¬ next_attempt 2 SessionOutcome.establishedThenError = 2 ∧
    (run_model 1 (List.replicate 5 SessionOutcome.establishedThenError) 0).2 = false ∧
    countAttempts
      (run_model 1 (List.replicate 5 SessionOutcome.establishedThenError) 0).1 = 5 := by
  decide

/-- Claim C5 (amended): the attempt counter is reset to zero after every
session in which the transport connection was successfully established —
`connect_and_run` returns `Ok` whether the read loop later exits via a
server close or via a transport error — so only attempts that fail to
establish the connection leave the incremented counter in place, and an
unbounded sequence of established-then-failed sessions never approaches
the attempt cap. -/
theorem C5_attempt_reset_amended (max k a : Nat) (hmax : 0 < max) :
    next_attempt a SessionOutcome.establishedThenError = 0 ∧
    next_attempt a SessionOutcome.establishedThenClose = 0 ∧
    next_attempt a SessionOutcome.connectFail = a ∧
    (run_model max (List.replicate k SessionOutcome.establishedThenError) 0).2 = false := by
  refine ⟨rfl, rfl, rfl, ?_⟩
  induction k with
  | zero =>
    show (run_model max [] 0).2 = false
    unfold run_model
    rw [if_neg (by omega)]
  | succ k ih =>
    rw [List.replicate_succ]
    unfold run_model
    rw [if_neg (by omega)]
    show (run_model max (List.replicate k SessionOutcome.establishedThenError) 0).2 = false
    exact ih

theorem C5_attempt_reset_amended_witness :
    next_attempt 5 SessionOutcome.establishedThenError = 0 ∧
    next_attempt 5 SessionOutcome.establishedThenClose = 0 ∧
    next_attempt 5 SessionOutcome.connectFail = 5 ∧
    (run_model 2 (List.replicate 3 SessionOutcome.establishedThenError) 0).2 = false :=
  C5_attempt_reset_amended 2 3 5 (by decide)

end KTunnel
